import Mathlib

/-!
Shallow embedding of the CEF `libcef_dll` bidirectional bridge shims.

Source files embedded:
- `libcef_dll/ctocpp/drag_handler_ctocpp.cc`
- `libcef_dll/ctocpp/views/panel_delegate_ctocpp.cc`
- `libcef_dll/ctocpp/render_process_handler_ctocpp.cc`
- `libcef_dll/cpptoc/auth_callback_cpptoc.cc`

C/C++ pointers (including `CefRefPtr`) are modelled as `Option`; a function
pointer that may be NULL (or lie beyond the struct's declared size, the
`CEF_MEMBER_MISSING` check) is an `Option` function member.  Observable side
effects on the far side of the boundary are returned as explicit call-event
lists.  `DCHECK` is debug-only and has no release-build effect; the embedding
models the release-build control flow (the early `return` that follows each
`DCHECK`).
-/

-- ===== Type tags (CefWrapperType) =====

/-- Wrapper type tags appearing in the embedded sources (`kWrapperType`
specializations and the tags tested by `UnwrapDerived`).  `WT_OTHER n` stands
for every further tag of the full enumeration. -/
inductive CefWrapperType where
  | WT_AUTH_CALLBACK
  | WT_DRAG_HANDLER
  | WT_LOAD_HANDLER
  | WT_PANEL_DELEGATE
  | WT_RENDER_PROCESS_HANDLER
  | WT_WINDOW_DELEGATE
  | WT_OTHER (n : Nat)
  deriving DecidableEq

-- ===== Managed-side (C++) object types, identified abstractly =====

structure CefBrowser where
  id : Nat
  deriving DecidableEq

structure CefDragData where
  id : Nat
  deriving DecidableEq

structure CefView where
  id : Nat
  deriving DecidableEq

structure CefFrame where
  id : Nat
  deriving DecidableEq

structure CefDOMNode where
  id : Nat
  deriving DecidableEq

structure CefProcessMessage where
  id : Nat
  deriving DecidableEq

/-- A managed-side `CefAuthCallback` implementation instance. -/
structure CefAuthCallback where
  id : Nat
  deriving DecidableEq

-- ===== CppToC handles (Reverse Wrapper) =====

/-- Modelled from the spec: the generic `CefCppToC` template (`cpptoc.h`) is
not under `src/`; only its generated callers are.  Per the spec, a Reverse
Wrapper is "an Opaque Handle instance that forwards each function-pointer call
to a Managed Wrapper's corresponding virtual method" and "holds a
shared-ownership reference to the Managed Wrapper for the handle's lifetime";
the handle therefore carries the managed object it was created from. -/
structure cppToCHandle (M : Type) where
  wrapped : M
  deriving DecidableEq

/-- Modelled from the spec: `CefCppToC::Wrap` — "given a Managed Wrapper
instance, wrap(instance) returns an Opaque Handle".  The generated callers
pass possibly-null `CefRefPtr`s through `Wrap`, and a null pointer wraps to a
null handle. -/
def CppToC.Wrap {M : Type} : Option M → Option (cppToCHandle M)
  | none => none
  | some x => some ⟨x⟩

/-- Modelled from the spec: `CefCppToC::Unwrap` — "given an Opaque Handle of a
specific interface type, unwrap(handle) returns the Managed Wrapper that
produced it".  A null handle unwraps to a null pointer. -/
def CppToC.Unwrap {M : Type} : Option (cppToCHandle M) → Option M
  | none => none
  | some h => some h.wrapped

/-- Modelled from the spec: `CefCppToC::Get` recovers the managed object from
a (non-null) handle, as used by the generated member functions
(`CefAuthCallbackCppToC::Get(self)`). -/
def CppToC.Get {M : Type} (h : cppToCHandle M) : M :=
  h.wrapped

-- ===== CToCpp objects and Unwrap =====

/-- A managed-side adapter object produced by some `CefCToCpp` wrapper class:
it records which concrete wrapper class created it (that class's
`kWrapperType`) and the underlying C structure it wraps (identified by a
numeric handle). -/
structure CToCppObj where
  wrapperType : CefWrapperType
  handle : Nat
  deriving DecidableEq

/-- Modelled from the spec: the generic `CefCToCpp::Unwrap` (`ctocpp.h`) is
not under `src/`.  Per the spec it "returns the Managed Wrapper that produced
it, or fails (debug-assert) if the handle did not originate from this bridge":
unwrapping through the class tagged `t` yields the underlying C structure when
the object originated from that class, and NULL otherwise. -/
def CToCpp.Unwrap (t : CefWrapperType) : Option CToCppObj → Option Nat
  | none => none
  | some o => if o.wrapperType = t then some o.handle else none

/-- Modelled from the spec: the generic `CefCToCpp::Wrap` (`ctocpp.h`) is not
under `src/`.  Wrapping a non-null C structure through the class tagged `t`
yields an adapter object of that class; wrapping NULL yields NULL. -/
def CToCpp.Wrap (t : CefWrapperType) : Option Nat → Option CToCppObj
  | none => none
  | some h => some ⟨t, h⟩

/-- `CefWindowDelegateCToCpp::Unwrap`, the derived-class unwrap used by
`CefPanelDelegateCToCpp`'s `UnwrapDerived` chain. -/
def CefWindowDelegateCToCpp.Unwrap (c : Option CToCppObj) : Option Nat :=
  CToCpp.Unwrap CefWrapperType.WT_WINDOW_DELEGATE c

-- ===== UnwrapDerived results =====

/-- Result of an `UnwrapDerived` specialization: either a normally returned
(possibly NULL) pointer, or the debug-fatal `NOTREACHED() << "Unexpected class
type"` path (which returns NULL in release builds); the constructor records
the offending tag. -/
inductive UnwrapDerivedResult where
  | ok : Option Nat → UnwrapDerivedResult
  | notreached : CefWrapperType → UnwrapDerivedResult
  deriving DecidableEq

/-- `CefCToCpp<CefPanelDelegateCToCpp,...>::UnwrapDerived`
(panel_delegate_ctocpp.cc lines 162-172): `WT_WINDOW_DELEGATE` routes to
`CefWindowDelegateCToCpp::Unwrap`; every other tag is NOTREACHED. -/
def CefPanelDelegateCToCpp.UnwrapDerived (type : CefWrapperType)
    (c : Option CToCppObj) : UnwrapDerivedResult :=
  if type = CefWrapperType.WT_WINDOW_DELEGATE then
    UnwrapDerivedResult.ok (CefWindowDelegateCToCpp.Unwrap c)
  else
    UnwrapDerivedResult.notreached type

/-- `CefCToCpp<CefDragHandlerCToCpp,...>::UnwrapDerived`
(drag_handler_ctocpp.cc lines 91-96): no derived types; every tag is
NOTREACHED. -/
def CefDragHandlerCToCpp.UnwrapDerived (type : CefWrapperType)
    (_c : Option CToCppObj) : UnwrapDerivedResult :=
  UnwrapDerivedResult.notreached type

/-- `CefCToCpp<CefRenderProcessHandlerCToCpp,...>::UnwrapDerived`
(render_process_handler_ctocpp.cc lines 296-301): no derived types; every tag
is NOTREACHED. -/
def CefRenderProcessHandlerCToCpp.UnwrapDerived (type : CefWrapperType)
    (_c : Option CToCppObj) : UnwrapDerivedResult :=
  UnwrapDerivedResult.notreached type

/-- `CefCppToC<CefAuthCallbackCppToC,...>::UnwrapDerived`
(auth_callback_cpptoc.cc lines 63-68): no derived types; every tag is
NOTREACHED. -/
def CefAuthCallbackCppToC.UnwrapDerived (type : CefWrapperType)
    (_s : Option (cppToCHandle CefAuthCallback)) : UnwrapDerivedResult :=
  UnwrapDerivedResult.notreached type

-- ===== Value structs and strings =====

/-- `cef_rect_t`: x, y, width, height. -/
structure cef_rect_t where
  x : Int
  y : Int
  width : Int
  height : Int
  deriving DecidableEq

/-- `cef_draggable_region_t`: bounds rectangle plus draggable flag; the C++
class `CefDraggableRegion` wraps the same plain data and copies by value
(`regionsList[i] = regions[i]`). -/
structure cef_draggable_region_t where
  bounds : cef_rect_t
  draggable : Int
  deriving DecidableEq

/-- The C++ value class over `cef_draggable_region_t` (same plain data). -/
abbrev CefDraggableRegion := cef_draggable_region_t

/-- `cef_size_t`: width, height; the C++ value class `CefSize` carries the
same fields, and `CefSize()` default-constructs to width = height = 0. -/
structure cef_size_t where
  width : Int
  height : Int
  deriving DecidableEq

abbrev CefSize := cef_size_t

/-- `CefSize()` — the default-constructed value object. -/
def CefSize.default : CefSize := ⟨0, 0⟩

/-- `cef_string_t`: the boundary string structure (its character data; the
{pointer, length, dtor} representation is abstracted to the carried text). -/
structure cef_string_t where
  data : String
  deriving DecidableEq

/-- The C++ `CefString` value and the `CefString(const cef_string_t*)`
conversion applied by the generated shims to a non-null string argument. -/
structure CefString where
  data : String
  deriving DecidableEq

def CefString.ofPtr (s : cef_string_t) : CefString :=
  ⟨s.data⟩

/-- `cef_drag_operations_mask_t` values pass through the boundary as plain
integers. -/
abbrev DragOperationsMask := Nat

/-- `cef_process_id_t`, the enumeration passed through
`OnProcessMessageReceived` unchanged. -/
inductive CefProcessId where
  | PID_BROWSER
  | PID_RENDERER
  deriving DecidableEq

-- ===== cef_drag_handler_t and its CToCpp shims =====

/-- `cef_drag_handler_t`: the C-side function-pointer table used by
`CefDragHandlerCToCpp`.  A member that is NULL or beyond the struct's declared
size (`CEF_MEMBER_MISSING`) is `none`. -/
structure cef_drag_handler_t where
  on_drag_enter :
    Option (Option (cppToCHandle CefBrowser) → Option (cppToCHandle CefDragData) →
      DragOperationsMask → Int)
  on_draggable_regions_changed :
    Option (Option (cppToCHandle CefBrowser) → Nat →
      Option (List cef_draggable_region_t) → Unit)

/-- `CefDragHandlerCToCpp::OnDragEnter` (drag_handler_ctocpp.cc lines 20-45).
Returns the C++ `bool` result paired with whether the table entry was invoked
(the only observable far-side effect of this shim).  Missing member → `false`;
null required `browser` or `dragData` → `false`; otherwise the C function
pointer is called on the wrapped arguments and its `int` result is mapped by
`_retval ? true : false`. -/
def CefDragHandlerCToCpp.OnDragEnter (s : cef_drag_handler_t)
    (browser : Option CefBrowser) (dragData : Option CefDragData)
    (mask : DragOperationsMask) : Bool × Bool :=
  match s.on_drag_enter with
  | none => (false, false)
  | some on_drag_enter =>
    match browser with
    | none => (false, false)
    | some _ =>
      match dragData with
      | none => (false, false)
      | some _ =>
        let _retval : Int :=
          on_drag_enter (CppToC.Wrap browser) (CppToC.Wrap dragData) mask
        (if _retval = 0 then false else true, true)

/-- One observable step of `OnDraggableRegionsChanged`: the transient native
array's allocation (`new cef_draggable_region_t[regionsCount]`), the call
through the function-pointer table with its marshalled arguments, and the
array's release (`delete [] regionsList`). -/
inductive RegionsEvent where
  | alloc (count : Nat)
  | call (browser : cppToCHandle CefBrowser) (count : Nat)
      (list : Option (List cef_draggable_region_t))
  | free
  deriving DecidableEq

def RegionsEvent.isAlloc : RegionsEvent → Bool
  | RegionsEvent.alloc _ => true
  | _ => false

def RegionsEvent.isFree : RegionsEvent → Bool
  | RegionsEvent.free => true
  | _ => false

/-- `CefDragHandlerCToCpp::OnDraggableRegionsChanged` (drag_handler_ctocpp.cc
lines 47-83), as its trace of observable events.  Missing member or null
required `browser` → early return with empty trace.  Otherwise: when
`regionsCount > 0` a native array is allocated and the elements copied into
it (`regionsList`), else `regionsList` stays NULL; the C function pointer is
called with `(regionsCount, regionsList)`; finally the array is released when
non-null. -/
def CefDragHandlerCToCpp.OnDraggableRegionsChanged (s : cef_drag_handler_t)
    (browser : Option CefBrowser) (regions : List CefDraggableRegion) :
    List RegionsEvent :=
  match s.on_draggable_regions_changed with
  | none => []
  | some _ =>
    match browser with
    | none => []
    | some b =>
      let regionsCount := regions.length
      let regionsList : Option (List cef_draggable_region_t) :=
        if regionsCount > 0 then some regions else none
      (if regionsCount > 0 then [RegionsEvent.alloc regionsCount] else [])
        ++ [RegionsEvent.call ⟨b⟩ regionsCount regionsList]
        ++ (if regionsList.isSome then [RegionsEvent.free] else [])

-- ===== cef_view_delegate_t and the CefPanelDelegateCToCpp shims =====

/-- `cef_view_delegate_t`: the C-side table reached by
`CefPanelDelegateCToCpp` through `reinterpret_cast` of its struct.  Only the
members exercised by the embedded shims are modelled. -/
structure cef_view_delegate_t where
  get_preferred_size : Option (Option (cppToCHandle CefView) → cef_size_t)
  get_height_for_width : Option (Option (cppToCHandle CefView) → Int → Int)

/-- `CefPanelDelegateCToCpp::GetPreferredSize` (panel_delegate_ctocpp.cc
lines 20-39).  Returns the `CefSize` result paired with whether the table
entry was invoked.  Missing member → `CefSize()`; null required `view` →
`CefSize()`; otherwise the `cef_size_t` returned by the C function pointer is
returned unchanged. -/
def CefPanelDelegateCToCpp.GetPreferredSize (s : cef_view_delegate_t)
    (view : Option CefView) : CefSize × Bool :=
  match s.get_preferred_size with
  | none => (CefSize.default, false)
  | some get_preferred_size =>
    match view with
    | none => (CefSize.default, false)
    | some _ =>
      let _retval : cef_size_t := get_preferred_size (CppToC.Wrap view)
      (_retval, true)

/-- `CefPanelDelegateCToCpp::GetHeightForWidth` (panel_delegate_ctocpp.cc
lines 83-104).  Returns the `int` result paired with whether the table entry
was invoked.  Missing member → 0; null required `view` → 0; otherwise the
`int` returned by the C function pointer is returned unchanged. -/
def CefPanelDelegateCToCpp.GetHeightForWidth (s : cef_view_delegate_t)
    (view : Option CefView) (width : Int) : Int × Bool :=
  match s.get_height_for_width with
  | none => (0, false)
  | some get_height_for_width =>
    match view with
    | none => (0, false)
    | some _ =>
      let _retval : Int := get_height_for_width (CppToC.Wrap view) width
      (_retval, true)

-- ===== cef_render_process_handler_t and its CToCpp shims =====

/-- `cef_render_process_handler_t`: only the members exercised by the
embedded shims are modelled. -/
structure cef_render_process_handler_t where
  get_load_handler : Option (Unit → Option Nat)
  on_focused_node_changed :
    Option (Option (cppToCHandle CefBrowser) → Option (cppToCHandle CefFrame) →
      Option (cppToCHandle CefDOMNode) → Unit)
  on_process_message_received :
    Option (Option (cppToCHandle CefBrowser) → CefProcessId →
      Option (cppToCHandle CefProcessMessage) → Int)

/-- `CefRenderProcessHandlerCToCpp::GetLoadHandler`
(render_process_handler_ctocpp.cc lines 93-105).  Missing member → NULL
(`none`); otherwise the returned `cef_load_handler_t*` is wrapped through
`CefLoadHandlerCToCpp::Wrap`. -/
def CefRenderProcessHandlerCToCpp.GetLoadHandler
    (s : cef_render_process_handler_t) : Option CToCppObj × Bool :=
  match s.get_load_handler with
  | none => (none, false)
  | some get_load_handler =>
    let _retval := get_load_handler ()
    (CToCpp.Wrap CefWrapperType.WT_LOAD_HANDLER _retval, true)

/-- The single far-side call made by `OnFocusedNodeChanged`, with its
marshalled arguments. -/
structure FocusedNodeCall where
  browser : Option (cppToCHandle CefBrowser)
  frame : Option (cppToCHandle CefFrame)
  node : Option (cppToCHandle CefDOMNode)
  deriving DecidableEq

/-- `CefRenderProcessHandlerCToCpp::OnFocusedNodeChanged`
(render_process_handler_ctocpp.cc lines 240-260), as its trace of far-side
calls.  Missing member → no call; required `browser` null → no call; `frame`
and `node` are unverified params (source comment "Unverified params: frame,
node") and are wrapped and forwarded even when null. -/
def CefRenderProcessHandlerCToCpp.OnFocusedNodeChanged
    (s : cef_render_process_handler_t) (browser : Option CefBrowser)
    (frame : Option CefFrame) (node : Option CefDOMNode) :
    List FocusedNodeCall :=
  match s.on_focused_node_changed with
  | none => []
  | some _ =>
    match browser with
    | none => []
    | some _ =>
      [⟨CppToC.Wrap browser, CppToC.Wrap frame, CppToC.Wrap node⟩]

/-- `CefRenderProcessHandlerCToCpp::OnProcessMessageReceived`
(render_process_handler_ctocpp.cc lines 262-288).  Returns the C++ `bool`
result paired with whether the table entry was invoked.  Missing member →
`false`; null required `browser` or `message` → `false`; otherwise the `int`
result of the C function pointer is mapped by `_retval ? true : false`. -/
def CefRenderProcessHandlerCToCpp.OnProcessMessageReceived
    (s : cef_render_process_handler_t) (browser : Option CefBrowser)
    (source_process : CefProcessId) (message : Option CefProcessMessage) :
    Bool × Bool :=
  match s.on_process_message_received with
  | none => (false, false)
  | some on_process_message_received =>
    match browser with
    | none => (false, false)
    | some _ =>
      match message with
      | none => (false, false)
      | some _ =>
        let _retval : Int :=
          on_process_message_received (CppToC.Wrap browser) source_process
            (CppToC.Wrap message)
        (if _retval = 0 then false else true, true)

-- ===== CefAuthCallbackCppToC member functions =====

/-- A call on the managed `CefAuthCallback` object made by the CppToC member
functions: `Continue(username, password)` or `Cancel()`. -/
inductive AuthCallbackCall where
  | cont (username : CefString) (password : CefString)
  | cancel
  deriving DecidableEq

/-- `auth_callback_cont` (auth_callback_cpptoc.cc lines 20-40), as its trace
of calls on the managed object.  Null `self`, `username` or `password`
(each a required param) → early return, no call; otherwise
`Get(self)->Continue(CefString(username), CefString(password))`. -/
def auth_callback_cont (self : Option (cppToCHandle CefAuthCallback))
    (username : Option cef_string_t) (password : Option cef_string_t) :
    List (CefAuthCallback × AuthCallbackCall) :=
  match self with
  | none => []
  | some self =>
    match username with
    | none => []
    | some username =>
      match password with
      | none => []
      | some password =>
        [(CppToC.Get self,
          AuthCallbackCall.cont (CefString.ofPtr username)
            (CefString.ofPtr password))]

/-- `auth_callback_cancel` (auth_callback_cpptoc.cc lines 42-51).  Null
`self` → early return, no call; otherwise `Get(self)->Cancel()`. -/
def auth_callback_cancel (self : Option (cppToCHandle CefAuthCallback)) :
    List (CefAuthCallback × AuthCallbackCall) :=
  match self with
  | none => []
  | some self =>
    [(CppToC.Get self, AuthCallbackCall.cancel)]

-- ===== Debug live-instance counter (DebugObjCt) =====

/-- The static initialization from the sources (debug builds only):
`template<> base::AtomicRefCount CefCToCpp<...>::DebugObjCt = 0`. -/
def DebugObjCt.init : Int := 0

/-- One atomic operation on a `DebugObjCt` counter.  Modelled from the spec:
the increment on construction and decrement on destruction live in the
`ctocpp.h`/`cpptoc.h` templates, which are not under `src/`; per the spec the
counter "is incremented/decremented atomically on construction/destruction".
Atomicity means each operation is a single indivisible step, so a concurrent
execution is an arbitrary interleaving of the threads' operation
sequences. -/
inductive CtOp where
  | increment
  | decrement
  deriving DecidableEq

/-- Apply one atomic counter operation. -/
def CtOp.apply (c : Int) : CtOp → Int
  | CtOp.increment => c + 1
  | CtOp.decrement => c - 1

/-- Run a sequence of atomic counter operations from an initial value. -/
def runCtOps (c : Int) (ops : List CtOp) : Int :=
  ops.foldl CtOp.apply c

-- ===== Helper lemmas and sample tables =====

/-- Net effect of a sequence of atomic counter operations: the initial value
plus the number of increments minus the number of decrements. -/
theorem runCtOps_eq_counts (l : List CtOp) : ∀ c : Int,
    runCtOps c l = c + l.count CtOp.increment - l.count CtOp.decrement := by
  induction l with
  | nil => intro c; simp [runCtOps]
  | cons op l ih =>
    intro c
    have hstep : runCtOps c (op :: l) = runCtOps (CtOp.apply c op) l := rfl
    rw [hstep, ih]
    cases op <;>
      simp [CtOp.apply, List.count_cons] <;> omega

def dragTableRet0 : cef_drag_handler_t :=
  ⟨some fun _ _ _ => 0, some fun _ _ _ => ()⟩

def dragTableRet1 : cef_drag_handler_t :=
  ⟨some fun _ _ _ => 1, some fun _ _ _ => ()⟩

def dragTableRet2 : cef_drag_handler_t :=
  ⟨some fun _ _ _ => 2, some fun _ _ _ => ()⟩

def viewTableSample : cef_view_delegate_t :=
  ⟨some fun _ => ⟨3, 4⟩, some fun _ w => w + 1⟩

def rphTableSample : cef_render_process_handler_t :=
  ⟨some fun _ => some 7, some fun _ _ _ => (), some fun _ _ _ => 2⟩

-- ===== Claims =====

/-- Claim C1: for every embedded bridge shim (in either direction), a null
self handle or null required parameter makes the shim return the method's
documented default result (false for bool, empty call trace for void) without
invoking the underlying function-pointer table or virtual method. -/
theorem C1_required_null_returns_default :
    (∀ u p, auth_callback_cont none u p = []) ∧
    (∀ s p, auth_callback_cont s none p = []) ∧
    (∀ s u, auth_callback_cont s u none = []) ∧
    auth_callback_cancel none = [] ∧
    (∀ s d m, CefDragHandlerCToCpp.OnDragEnter s none d m = (false, false)) ∧
    (∀ s b m, CefDragHandlerCToCpp.OnDragEnter s b none m = (false, false)) ∧
    (∀ s r, CefDragHandlerCToCpp.OnDraggableRegionsChanged s none r = []) ∧
    (∀ s, CefPanelDelegateCToCpp.GetPreferredSize s none =
      (CefSize.default, false)) ∧
    (∀ s w, CefPanelDelegateCToCpp.GetHeightForWidth s none w = (0, false)) ∧
    (∀ s f n, CefRenderProcessHandlerCToCpp.OnFocusedNodeChanged s none f n
      = []) ∧
    (∀ s pid msg,
      CefRenderProcessHandlerCToCpp.OnProcessMessageReceived s none pid msg =
        (false, false)) ∧
    (∀ s b pid,
      CefRenderProcessHandlerCToCpp.OnProcessMessageReceived s b pid none =
        (false, false)) := by
  refine ⟨fun u p => rfl, fun s p => ?_, fun s u => ?_, rfl,
    fun s d m => ?_, fun s b m => ?_, fun s r => ?_, fun s => ?_,
    fun s w => ?_, fun s f n => ?_, fun s pid msg => ?_, fun s b pid => ?_⟩
  · cases s <;> rfl
  · cases s
    · rfl
    · cases u <;> rfl
  · obtain ⟨ode, odrc⟩ := s
    cases ode <;> rfl
  · obtain ⟨ode, odrc⟩ := s
    cases ode
    · rfl
    · cases b <;> rfl
  · obtain ⟨ode, odrc⟩ := s
    cases odrc <;> rfl
  · obtain ⟨gps, ghfw⟩ := s
    cases gps <;> rfl
  · obtain ⟨gps, ghfw⟩ := s
    cases ghfw <;> rfl
  · obtain ⟨glh, ofnc, opmr⟩ := s
    cases ofnc <;> rfl
  · obtain ⟨glh, ofnc, opmr⟩ := s
    cases opmr <;> rfl
  · obtain ⟨glh, ofnc, opmr⟩ := s
    cases opmr
    · rfl
    · cases b <;> rfl

/-- Claim C2: for every embedded CToCpp shim, a missing optional function
pointer in the handle's table makes the shim return the return type's
zero/false/NULL/default value without invoking anything. -/
theorem C2_missing_member_returns_default :
    (∀ e b d m, CefDragHandlerCToCpp.OnDragEnter ⟨none, e⟩ b d m =
      (false, false)) ∧
    (∀ e b r, CefDragHandlerCToCpp.OnDraggableRegionsChanged ⟨e, none⟩ b r
      = []) ∧
    (∀ g v, CefPanelDelegateCToCpp.GetPreferredSize ⟨none, g⟩ v =
      (CefSize.default, false)) ∧
    (∀ g v w, CefPanelDelegateCToCpp.GetHeightForWidth ⟨g, none⟩ v w =
      (0, false)) ∧
    (∀ a b, CefRenderProcessHandlerCToCpp.GetLoadHandler ⟨none, a, b⟩ =
      (none, false)) ∧
    (∀ a b br f n,
      CefRenderProcessHandlerCToCpp.OnFocusedNodeChanged ⟨a, none, b⟩ br f n
        = []) ∧
    (∀ a b br pid msg,
      CefRenderProcessHandlerCToCpp.OnProcessMessageReceived ⟨a, b, none⟩
        br pid msg = (false, false)) :=
  ⟨fun _ _ _ _ => rfl, fun _ _ _ => rfl, fun _ _ => rfl, fun _ _ _ => rfl,
    fun _ _ => rfl, fun _ _ _ _ _ => rfl, fun _ _ _ _ _ => rfl⟩

/-- Claim C3: each `UnwrapDerived` specialization routes a tag in its chain of
known derived types to that derived class's `Unwrap` (so a returned non-null
pointer always comes from an object of the matching concrete class), and
signals the NOTREACHED "unexpected class type" condition on every other tag;
it never silently returns a wrongly-typed pointer. -/
theorem C3_unwrap_derived_routes_or_fails :
    (∀ c, CefPanelDelegateCToCpp.UnwrapDerived
        CefWrapperType.WT_WINDOW_DELEGATE c =
      UnwrapDerivedResult.ok (CefWindowDelegateCToCpp.Unwrap c)) ∧
    (∀ t c, t ≠ CefWrapperType.WT_WINDOW_DELEGATE →
      CefPanelDelegateCToCpp.UnwrapDerived t c =
        UnwrapDerivedResult.notreached t) ∧
    (∀ t c h, CefPanelDelegateCToCpp.UnwrapDerived t c =
        UnwrapDerivedResult.ok (some h) →
      ∃ o, c = some o ∧
        o.wrapperType = CefWrapperType.WT_WINDOW_DELEGATE ∧ o.handle = h) ∧
    (∀ t c, CefDragHandlerCToCpp.UnwrapDerived t c =
      UnwrapDerivedResult.notreached t) ∧
    (∀ t c, CefRenderProcessHandlerCToCpp.UnwrapDerived t c =
      UnwrapDerivedResult.notreached t) ∧
    (∀ t s, CefAuthCallbackCppToC.UnwrapDerived t s =
      UnwrapDerivedResult.notreached t) := by
  refine ⟨fun c => ?_, fun t c ht => ?_, fun t c h hok => ?_,
    fun t c => rfl, fun t c => rfl, fun t s => rfl⟩
  · simp [CefPanelDelegateCToCpp.UnwrapDerived]
  · simp [CefPanelDelegateCToCpp.UnwrapDerived, ht]
  · by_cases ht : t = CefWrapperType.WT_WINDOW_DELEGATE
    · subst ht
      simp only [CefPanelDelegateCToCpp.UnwrapDerived, if_pos rfl] at hok
      cases c with
      | none => simp [CefWindowDelegateCToCpp.Unwrap, CToCpp.Unwrap] at hok
      | some o =>
        refine ⟨o, rfl, ?_⟩
        simp only [CefWindowDelegateCToCpp.Unwrap, CToCpp.Unwrap] at hok
        by_cases hw : o.wrapperType = CefWrapperType.WT_WINDOW_DELEGATE
        · rw [if_pos hw] at hok
          exact ⟨hw, by injection hok with h1; injection h1⟩
        · rw [if_neg hw] at hok
          exact absurd hok (by simp)
    · simp [CefPanelDelegateCToCpp.UnwrapDerived, ht] at hok

/-- Witness for C3 at concrete inputs: an out-of-chain tag is NOTREACHED, and
an in-chain tag recovers exactly the window-delegate-originated object. -/
theorem C3_unwrap_derived_witness :
    CefPanelDelegateCToCpp.UnwrapDerived CefWrapperType.WT_DRAG_HANDLER
        (some ⟨CefWrapperType.WT_WINDOW_DELEGATE, 5⟩) =
      UnwrapDerivedResult.notreached CefWrapperType.WT_DRAG_HANDLER ∧
    (∃ o, (some ⟨CefWrapperType.WT_WINDOW_DELEGATE, 5⟩ : Option CToCppObj) =
        some o ∧
      o.wrapperType = CefWrapperType.WT_WINDOW_DELEGATE ∧ o.handle = 5) :=
  ⟨C3_unwrap_derived_routes_or_fails.2.1 CefWrapperType.WT_DRAG_HANDLER
      (some ⟨CefWrapperType.WT_WINDOW_DELEGATE, 5⟩) (by decide),
    C3_unwrap_derived_routes_or_fails.2.2.1 CefWrapperType.WT_WINDOW_DELEGATE
      (some ⟨CefWrapperType.WT_WINDOW_DELEGATE, 5⟩) 5 (by decide)⟩

/-- Claim C4: in `CefDragHandlerCToCpp::OnDraggableRegionsChanged`, on every
exit path the transient native array is released exactly as many times as it
is allocated (at most once): no leak and no double free, whatever the table,
browser and regions arguments are. -/
theorem C4_regions_array_released_exactly_once :
    ∀ s b regions,
      (CefDragHandlerCToCpp.OnDraggableRegionsChanged s b regions).countP
          (fun e => e.isAlloc) =
        (CefDragHandlerCToCpp.OnDraggableRegionsChanged s b regions).countP
          (fun e => e.isFree) ∧
      (CefDragHandlerCToCpp.OnDraggableRegionsChanged s b regions).countP
          (fun e => e.isFree) ≤ 1 := by
  intro s b regions
  obtain ⟨ode, odrc⟩ := s
  cases odrc with
  | none => exact ⟨rfl, Nat.zero_le 1⟩
  | some f =>
    cases b with
    | none => exact ⟨rfl, Nat.zero_le 1⟩
    | some b =>
      cases regions with
      | nil =>
        simp [CefDragHandlerCToCpp.OnDraggableRegionsChanged, List.countP,
          List.countP.go, RegionsEvent.isAlloc, RegionsEvent.isFree]
      | cons r rs =>
        simp [CefDragHandlerCToCpp.OnDraggableRegionsChanged, List.countP,
          List.countP.go, RegionsEvent.isAlloc, RegionsEvent.isFree]

/-- Claim C5: wrapping a managed object as an Opaque Handle and unwrapping
that handle yields the original object; a null pointer stays null through
both operations. -/
theorem C5_unwrap_wrap_identity :
    (∀ (M : Type) (x : M), CppToC.Unwrap (CppToC.Wrap (some x)) = some x) ∧
    (∀ (M : Type), CppToC.Unwrap (M := M) (CppToC.Wrap none) = none) :=
  ⟨fun _ _ => rfl, fun _ => rfl⟩

/-- Claim C6: return-type translation preserves value semantics: a C `int`
return of 0 maps to `false` and 1 maps to `true` in `OnDragEnter`; a
`cef_size_t` return is passed through unchanged by `GetPreferredSize`; an
`int` return is passed through unchanged by `GetHeightForWidth`. -/
theorem C6_return_translation_preserves_values :
    (∀ s b d m f, s.on_drag_enter = some f →
      f (some ⟨b⟩) (some ⟨d⟩) m = 0 →
      (CefDragHandlerCToCpp.OnDragEnter s (some b) (some d) m).1 = false) ∧
    (∀ s b d m f, s.on_drag_enter = some f →
      f (some ⟨b⟩) (some ⟨d⟩) m = 1 →
      (CefDragHandlerCToCpp.OnDragEnter s (some b) (some d) m).1 = true) ∧
    (∀ s v f, s.get_preferred_size = some f →
      CefPanelDelegateCToCpp.GetPreferredSize s (some v) =
        (f (some ⟨v⟩), true)) ∧
    (∀ s v w f, s.get_height_for_width = some f →
      CefPanelDelegateCToCpp.GetHeightForWidth s (some v) w =
        (f (some ⟨v⟩) w, true)) := by
  refine ⟨fun s b d m f hf h0 => ?_, fun s b d m f hf h1 => ?_,
    fun s v f hf => ?_, fun s v w f hf => ?_⟩
  · obtain ⟨ode, odrc⟩ := s
    cases hf
    simp [CefDragHandlerCToCpp.OnDragEnter, CppToC.Wrap] at h0 ⊢
    simp [h0]
  · obtain ⟨ode, odrc⟩ := s
    cases hf
    simp [CefDragHandlerCToCpp.OnDragEnter, CppToC.Wrap] at h1 ⊢
    simp [h1]
  · obtain ⟨gps, ghfw⟩ := s
    cases hf
    rfl
  · obtain ⟨gps, ghfw⟩ := s
    cases hf
    rfl

/-- Witness for C6 at concrete inputs: a table whose entry returns 0 yields
`false`, one returning 1 yields `true`, and the sample view table's struct
and int results pass through unchanged. -/
theorem C6_return_translation_witness :
    (CefDragHandlerCToCpp.OnDragEnter dragTableRet0 (some ⟨0⟩) (some ⟨1⟩)
      3).1 = false ∧
    (CefDragHandlerCToCpp.OnDragEnter dragTableRet1 (some ⟨0⟩) (some ⟨1⟩)
      3).1 = true ∧
    CefPanelDelegateCToCpp.GetPreferredSize viewTableSample (some ⟨2⟩) =
      (⟨3, 4⟩, true) ∧
    CefPanelDelegateCToCpp.GetHeightForWidth viewTableSample (some ⟨2⟩) 10 =
      (11, true) :=
  ⟨C6_return_translation_preserves_values.1 dragTableRet0 ⟨0⟩ ⟨1⟩ 3 _ rfl rfl,
    C6_return_translation_preserves_values.2.1 dragTableRet1 ⟨0⟩ ⟨1⟩ 3 _ rfl
      rfl,
    C6_return_translation_preserves_values.2.2.1 viewTableSample ⟨2⟩ _ rfl,
    C6_return_translation_preserves_values.2.2.2 viewTableSample ⟨2⟩ 10 _ rfl⟩

/-- Claim C7: in `OnFocusedNodeChanged` the optional `frame` and `node`
parameters are forwarded unverified (wrapped and passed through even when
null, with no early return), while the required `browser` parameter of the
same call is still checked. -/
theorem C7_optional_params_forwarded_unchecked :
    (∀ s f b frame node, s.on_focused_node_changed = some f →
      CefRenderProcessHandlerCToCpp.OnFocusedNodeChanged s (some b) frame
          node =
        [⟨some ⟨b⟩, CppToC.Wrap frame, CppToC.Wrap node⟩]) ∧
    (∀ s frame node,
      CefRenderProcessHandlerCToCpp.OnFocusedNodeChanged s none frame node
        = []) := by
  constructor
  · intro s f b frame node hf
    obtain ⟨glh, ofnc, opmr⟩ := s
    cases hf
    rfl
  · intro s frame node
    obtain ⟨glh, ofnc, opmr⟩ := s
    cases ofnc <;> rfl

/-- Witness for C7 at concrete inputs: null `frame` and `node` are forwarded
as null handles in the single far-side call. -/
theorem C7_optional_params_witness :
    CefRenderProcessHandlerCToCpp.OnFocusedNodeChanged rphTableSample
        (some ⟨4⟩) none none =
      [⟨some ⟨⟨4⟩⟩, none, none⟩] :=
  C7_optional_params_forwarded_unchecked.1 rphTableSample _ ⟨4⟩ none none rfl

/-- Claim C8: the per-type debug live-instance counter starts at zero and is
driven only by atomic increments and decrements, so any interleaving of two
threads' operation sequences converges to the correct net count (increments
minus decrements) with no lost updates. -/
theorem C8_debug_counter_no_lost_updates :
    (∀ a b l : List CtOp, l.Perm (a ++ b) →
      runCtOps DebugObjCt.init l = runCtOps DebugObjCt.init (a ++ b)) ∧
    (∀ l : List CtOp, runCtOps DebugObjCt.init l =
      (l.count CtOp.increment : Int) - (l.count CtOp.decrement : Int)) := by
  constructor
  · intro a b l hperm
    rw [runCtOps_eq_counts, runCtOps_eq_counts,
      hperm.count_eq CtOp.increment, hperm.count_eq CtOp.decrement]
  · intro l
    rw [runCtOps_eq_counts]
    simp [DebugObjCt.init]

/-- Witness for C8 at a concrete interleaving: two increments on one thread
interleaved with one decrement on another net to +1. -/
theorem C8_debug_counter_witness :
    runCtOps DebugObjCt.init
        [CtOp.increment, CtOp.decrement, CtOp.increment] =
      runCtOps DebugObjCt.init
        ([CtOp.increment, CtOp.increment] ++ [CtOp.decrement]) ∧
    runCtOps DebugObjCt.init
        [CtOp.increment, CtOp.decrement, CtOp.increment] = 1 :=
  ⟨C8_debug_counter_no_lost_updates.1 [CtOp.increment, CtOp.increment]
      [CtOp.decrement] [CtOp.increment, CtOp.decrement, CtOp.increment]
      (by decide),
    by decide⟩

/-- Claim C9: `OnDraggableRegionsChanged` with an empty regions vector, a
non-null browser and a present function pointer allocates no native array and
invokes the C-side callback with count 0 and a NULL array pointer. -/
theorem C9_empty_regions_no_allocation :
    ∀ s f b, s.on_draggable_regions_changed = some f →
      CefDragHandlerCToCpp.OnDraggableRegionsChanged s (some b) [] =
        [RegionsEvent.call ⟨b⟩ 0 none] := by
  intro s f b hf
  obtain ⟨ode, odrc⟩ := s
  cases hf
  rfl

/-- Witness for C9 at concrete inputs. -/
theorem C9_empty_regions_witness :
    CefDragHandlerCToCpp.OnDraggableRegionsChanged dragTableRet0 (some ⟨6⟩)
        [] =
      [RegionsEvent.call ⟨⟨6⟩⟩ 0 none] :=
  C9_empty_regions_no_allocation dragTableRet0 _ ⟨6⟩ rfl

/-- Claim C10: the bool-returning CToCpp shims `OnDragEnter` and
`OnProcessMessageReceived` map any nonzero C-side `int` result to `true` and
exactly 0 to `false` (the `_retval ? true : false` translation). -/
theorem C10_nonzero_int_maps_to_true :
    (∀ s b d m f r, s.on_drag_enter = some f →
      f (some ⟨b⟩) (some ⟨d⟩) m = r →
      ((CefDragHandlerCToCpp.OnDragEnter s (some b) (some d) m).1 = true ↔
        r ≠ 0)) ∧
    (∀ s b pid msg f r, s.on_process_message_received = some f →
      f (some ⟨b⟩) pid (some ⟨msg⟩) = r →
      ((CefRenderProcessHandlerCToCpp.OnProcessMessageReceived s (some b)
          pid (some msg)).1 = true ↔ r ≠ 0)) := by
  constructor
  · intro s b d m f r hf hr
    obtain ⟨ode, odrc⟩ := s
    cases hf
    simp [CefDragHandlerCToCpp.OnDragEnter, CppToC.Wrap] at hr ⊢
    rw [hr]
  · intro s b pid msg f r hf hr
    obtain ⟨glh, ofnc, opmr⟩ := s
    cases hf
    simp [CefRenderProcessHandlerCToCpp.OnProcessMessageReceived,
      CppToC.Wrap] at hr ⊢
    rw [hr]

/-- Witness for C10 at concrete inputs: a C-side result of 2 (nonzero and not
1) maps to `true` in both shims. -/
theorem C10_nonzero_int_witness :
    (CefDragHandlerCToCpp.OnDragEnter dragTableRet2 (some ⟨0⟩) (some ⟨1⟩)
      3).1 = true ∧
    (CefRenderProcessHandlerCToCpp.OnProcessMessageReceived rphTableSample
      (some ⟨0⟩) CefProcessId.PID_RENDERER (some ⟨1⟩)).1 = true :=
  ⟨(C10_nonzero_int_maps_to_true.1 dragTableRet2 ⟨0⟩ ⟨1⟩ 3 _ 2 rfl rfl).mpr
      (by decide),
    (C10_nonzero_int_maps_to_true.2 rphTableSample ⟨0⟩
      CefProcessId.PID_RENDERER ⟨1⟩ _ 2 rfl rfl).mpr (by decide)⟩
